import Mathlib

/-!
Verification of plainMail2HTML's `MessageProcessor`
(`plain2html/core/message_processor.py`).

The embedding models a parsed email message as a tree (`Message`): a leaf
carries a raw string payload, a container carries an ordered list of child
messages.  Headers are an ordered association list with case-insensitive
lookup, as in Python's `email.message.Message`.

String helpers (`strLower`, `strStrip`, `splitOnChar`, ...) re-implement the
Python string operations the source relies on (`str.lower`, `str.strip`,
`str.split`) by structural recursion over the character list, so that every
definition evaluates inside the kernel.
-/

namespace Plain2Html

/-- Lower-case a single ASCII character (model of `str.lower` per character). -/
def lowerChar (c : Char) : Char :=
  if 65 ≤ c.toNat ∧ c.toNat ≤ 90 then Char.ofNat (c.toNat + 32) else c

/-- Model of Python `str.lower` (ASCII range). -/
def strLower (s : String) : String :=
  String.mk (s.data.map lowerChar)

/-- ASCII whitespace test, for `str.strip`. -/
def isSpaceChar (c : Char) : Bool :=
  c == ' ' || c == '\t' || c == '\n' || c == '\r'

/-- Model of Python `str.strip`: drop whitespace from both ends. -/
def strStrip (s : String) : String :=
  String.mk (((s.data.dropWhile isSpaceChar).reverse.dropWhile isSpaceChar).reverse)

/-- Split a character list at every occurrence of `sep` (model of
Python `str.split(sep)` for a one-character separator). -/
def splitOnCharAux (sep : Char) : List Char → List Char → List (List Char)
  | [], acc => [acc.reverse]
  | c :: cs, acc =>
    if c == sep then acc.reverse :: splitOnCharAux sep cs []
    else splitOnCharAux sep cs (c :: acc)

/-- Model of Python `str.split(sep)` for a one-character separator. -/
def splitOnChar (sep : Char) (s : String) : List String :=
  (splitOnCharAux sep s.data []).map String.mk

/-- Does the second list start with the first one? -/
def beginsWith : List Char → List Char → Bool
  | [], _ => true
  | _ :: _, [] => false
  | p :: ps, c :: cs => p == c && beginsWith ps cs

/-- Remove one pair of surrounding double quotes, as the email library's
parameter unquoting does for `charset="utf-8"`. -/
def stripQuotes (s : String) : String :=
  let l := s.data
  if 2 ≤ l.length && l.headD ' ' == '"' && l.getLast? == some '"' then
    String.mk ((l.drop 1).dropLast)
  else s

/-- Is every character 7-bit? (Python's `_text.encode('us-ascii')` succeeding.) -/
def isAsciiStr (s : String) : Bool :=
  s.data.all (fun c => c.toNat < 128)

/-- UTF-8 encoding of one character, as a list of byte values. -/
def utf8EncodeCharNat (c : Char) : List Nat :=
  let n := c.toNat
  if n < 128 then [n]
  else if n < 2048 then [192 + n / 64, 128 + n % 64]
  else if n < 65536 then [224 + n / 4096, 128 + n / 64 % 64, 128 + n % 64]
  else [240 + n / 262144, 128 + n / 4096 % 64, 128 + n / 64 % 64, 128 + n % 64]

/-- UTF-8 byte values of a string. -/
def utf8BytesOf (s : String) : List Nat :=
  s.data.foldr (fun c acc => utf8EncodeCharNat c ++ acc) []

/-- The base64 alphabet. -/
def base64Alphabet : List Char :=
  ("ABCDEFGHIJKLMNOPQRSTUVWXYZabcdefghijklmnopqrstuvwxyz0123456789+/").data

/-- The base64 digit for a 6-bit value. -/
def b64c (n : Nat) : Char := base64Alphabet.getD n '='

/-- Base64-encode a list of byte values (standard alphabet, with `=` padding;
the email library's 76-column line wrapping is omitted, no claim depends on it). -/
def base64Chunks : List Nat → String
  | [] => ""
  | [a] => String.mk [b64c (a / 4), b64c (a % 4 * 16), '=', '=']
  | [a, b] => String.mk [b64c (a / 4), b64c (a % 4 * 16 + b / 16), b64c (b % 16 * 4), '=']
  | a :: b :: c :: rest =>
    String.mk [b64c (a / 4), b64c (a % 4 * 16 + b / 16),
               b64c (b % 16 * 4 + c / 64), b64c (c % 64)] ++ base64Chunks rest

/-- A parsed email message: a leaf (raw string payload) or a container
(ordered children).  Headers are an ordered list of (name, value) pairs. -/
inductive Message where
  | leaf (headers : List (String × String)) (payload : String)
  | multi (headers : List (String × String)) (children : List Message)

/-- The header list of a message. -/
def Message.headers : Message → List (String × String)
  | .leaf hs _ => hs
  | .multi hs _ => hs

/-- Rebuild a message with new headers, keeping its body. -/
def Message.withHeaders : Message → List (String × String) → Message
  | .leaf _ p, hs => .leaf hs p
  | .multi _ cs, hs => .multi hs cs

/-- Model of `Message.is_multipart()`: is the payload a list of sub-messages? -/
def Message.is_multipart : Message → Bool
  | .leaf _ _ => false
  | .multi _ _ => true

/-- The string payload of a leaf (`msg.get_payload()` on a non-container;
every call site is guarded by an `is_multipart` check, so the container
case is unreachable there). -/
def Message.payloadText : Message → String
  | .leaf _ p => p
  | .multi _ _ => ""

/-- The child list of a container (`msg.get_payload()` on a container). -/
def Message.children : Message → List Message
  | .leaf _ _ => []
  | .multi _ cs => cs

/-- Case-insensitive header-name match, as in `email.message.Message`. -/
def headerMatches (name : String) (entry : String × String) : Bool :=
  strLower entry.1 == strLower name

/-- Model of `msg.get(name)`: first header with the given name
(case-insensitive), or none. -/
def Message.get (m : Message) (name : String) : Option String :=
  (m.headers.find? (headerMatches name)).map Prod.snd

/-- Replace the value of the first header matching `name`, keeping the stored
field name, as `email.message.Message.replace_header` does.  (Python raises
`KeyError` when the header is absent; at every call site it is present.) -/
def replaceFirst (name value : String) : List (String × String) → List (String × String)
  | [] => []
  | e :: rest =>
    if headerMatches name e then (e.1, value) :: rest
    else e :: replaceFirst name value rest

/-- Remove every header matching `name` (model of `del msg[name]`). -/
def deleteHeader (name : String) (hs : List (String × String)) : List (String × String) :=
  hs.filter (fun e => !headerMatches name e)

/-- Set header `name` to `value`: replace its first occurrence when present,
append it otherwise. -/
def Message.setHeader (m : Message) (name value : String) : Message :=
  if (m.get name).isSome then m.withHeaders (replaceFirst name value m.headers)
  else m.withHeaders (m.headers ++ [(name, value)])

/-- Remove header `name` from a message. -/
def Message.delHeader (m : Message) (name : String) : Message :=
  m.withHeaders (deleteHeader name m.headers)

/-- Model of `msg.get_content_type()`: the `Content-Type` value up to the
first `;`, stripped and lower-cased; `text/plain` when the header is absent
or the type is not of the form `maintype/subtype`. -/
def Message.get_content_type (m : Message) : String :=
  match m.get "Content-Type" with
  | none => "text/plain"
  | some v =>
    let ctype := strLower (strStrip ((splitOnChar ';' v).headD v))
    if (splitOnChar '/' ctype).length == 2 then ctype else "text/plain"

/-- Model of `msg.get_content_charset()`: the `charset` parameter of the
`Content-Type` header, unquoted and lower-cased, or none. -/
def Message.get_content_charset (m : Message) : Option String :=
  match m.get "Content-Type" with
  | none => none
  | some v =>
    (splitOnChar ';' v).tail.findSome? fun q =>
      let q := strStrip q
      if beginsWith ("charset=".data) ((strLower q).data) then
        some (strLower (stripQuotes (String.mk (q.data.drop 8))))
      else none

/-- Model of `Message.replace_header(name, value)` (header present at every
call site; kept total by leaving the message unchanged otherwise). -/
def Message.replace_header (m : Message) (name value : String) : Message :=
  m.withHeaders (replaceFirst name value m.headers)

/-- Model of `Message.set_payload(s)` with no charset argument: store the raw
string.  (Call sites apply it to freshly built `MIMEText` leaves only.) -/
def Message.set_payload (m : Message) (s : String) : Message :=
  match m with
  | .leaf hs _ => .leaf hs s
  | .multi hs cs => .multi hs cs

/-- Modelled from the spec: the message-construction collaborator's
body-encoding policy (spec section 6; the concrete library is CPython's
`email.charset`, not part of this repository).  The 7-bit-safe default
charset `us-ascii` keeps the body as-is with transfer encoding `7bit`;
other charsets here use base64 (exact for `utf-8`, the only non-default
charset the spec exercises). -/
def charsetBodyEncoding (cs : String) : String :=
  if cs == "us-ascii" then "7bit" else "base64"

/-- Modelled from the spec: body encoding applied by the message collaborator
when a charset is supplied at construction (see `charsetBodyEncoding`). -/
def charsetBodyEncode (cs : String) (text : String) : String :=
  if cs == "us-ascii" then text else base64Chunks (utf8BytesOf text)

/-- Modelled from the spec: `MIMEText(text, subtype, charset)` of the message
collaborator (spec section 6).  With no charset, `us-ascii` is chosen when the
text is 7-bit clean, `utf-8` otherwise; the headers are `Content-Type` with a
quoted charset parameter, `MIME-Version`, and the `Content-Transfer-Encoding`
implied by the charset; the payload is the body-encoded text. -/
def MIMEText (text : String) (subtype : String) (charsetArg : Option String) : Message :=
  let cs := match charsetArg with
    | some c => c
    | none => if isAsciiStr text then "us-ascii" else "utf-8"
  Message.leaf
    [("Content-Type", "text/" ++ subtype ++ "; charset=\"" ++ cs ++ "\""),
     ("MIME-Version", "1.0"),
     ("Content-Transfer-Encoding", charsetBodyEncoding cs)]
    (charsetBodyEncode cs text)

/-- Modelled from the spec: `MIMEMultipart(subtype)` of the message
collaborator: an empty container with the corresponding content type. -/
def MIMEMultipart (subtype : String) : Message :=
  Message.multi
    [("Content-Type", "multipart/" ++ subtype), ("MIME-Version", "1.0")]
    []

/-- Model of `Message.attach`: append a child to a container.  (Only ever
applied to containers in the source.) -/
def Message.attach (m : Message) (p : Message) : Message :=
  match m with
  | .multi hs cs => .multi hs (cs ++ [p])
  | .leaf hs pay => .leaf hs pay

/-- Rebuild a `Content-Type` value with its `charset` parameter removed
(`cs = none`) or set (`cs = some c`, quoted), keeping the main type and the
other parameters. -/
def ctWithCharset (v : String) (cs : Option String) : String :=
  let ps := splitOnChar ';' v
  let main := strStrip (ps.headD v)
  let keep := ps.tail.filter
    (fun q => !(beginsWith ("charset=".data) ((strLower (strStrip q)).data)))
  let base := keep.foldl (fun acc q => acc ++ "; " ++ strStrip q) main
  match cs with
  | none => base
  | some c => base ++ "; charset=\"" ++ c ++ "\""

/-- Modelled from the spec: `Message.set_charset` of the message collaborator,
specialised to its single call site in `_create_html_message`, where the
message already carries `Content-Type`, `MIME-Version` and
`Content-Transfer-Encoding` headers and the payload is not re-encoded: the
call only rewrites the `charset` parameter of `Content-Type` (removing it when
the charset is none). -/
def Message.set_charset (m : Message) (cs : Option String) : Message :=
  match m.get "Content-Type" with
  | some v => m.setHeader "Content-Type" (ctWithCharset v cs)
  | none => m

/-- Modelled from the spec: `clone_header` lives in
`plain2html/core/message_utils.py`, which is not under `src/`.  Spec section 9:
"Header cloning helper (copies named fields between message objects): model as
a pure function clone_header(name, src, dst)".  After cloning, `dst`'s header
`name` reads exactly as `src`'s: the value is copied when present in `src`,
and the field is removed from `dst` when `src` lacks it. -/
def clone_header (name : String) (src dst : Message) : Message :=
  match src.get name with
  | some v => dst.setHeader name v
  | none => dst.delHeader name

/-- Modelled from the spec: `convert_text_to_alternative` lives in
`plain2html/core/message_utils.py`, which is not under `src/`.  Spec section
4.2: "derive a new alternative container from the original message (preserving
all non-content-structural headers — i.e., convert the original message's
envelope into a multipart/alternative envelope while retaining headers such as
subject/from/to)".  The content-structural headers (`Content-Type`,
`Content-Transfer-Encoding`) are replaced by a `multipart/alternative` content
type; the container starts with no children. -/
def convert_text_to_alternative (msg : Message) : Message :=
  Message.multi
    (deleteHeader "Content-Transfer-Encoding" (deleteHeader "Content-Type" msg.headers)
      ++ [("Content-Type", "multipart/alternative")])
    []

/-- The errors the transformation can signal: `MessageTypeError` (carrying its
message string, exactly as raised in the source), the `IndexError` Python
would raise on `get_payload()[0]` of an empty container, and a failure raised
by the externally supplied rendering function, propagated unchanged. -/
inductive ProcError where
  | messageTypeError (value : String)
  | indexError
  | renderError (value : String)

/-- The engine's configuration (`MessageProcessor.__init__`): the injected
rendering function (source name `html_parser`; a failing renderer returns
`.error`) and the `allow_8bit` flag.  The unused `preferred_charset`
attribute is omitted. -/
structure MessageProcessor where
  htmlParser : String → Except String String
  allow_8bit : Bool

/-- Model of `MessageProcessor._create_plain_message`: a fresh `MIMEText`
leaf whose payload is copied from `msg` and whose `Content-Type` and
`Content-Transfer-Encoding` headers are cloned from `msg`. -/
def create_plain_message (msg : Message) : Message :=
  let text_msg := MIMEText "" "plain" none
  let text_msg := text_msg.set_payload msg.payloadText
  let text_msg := clone_header "Content-Type" msg text_msg
  clone_header "Content-Transfer-Encoding" msg text_msg

/-- Model of `MessageProcessor._create_html_message`: render the raw payload
to HTML (renderer failures propagate), then build the HTML leaf.  In 8-bit
mode: empty `MIMEText`, raw payload, original charset, and an explicit `8bit`
transfer encoding unless the charset is `us-ascii`.  Otherwise `MIMEText`
does the construction and encoding. -/
def create_html_message (p : MessageProcessor) (msg : Message) : Except ProcError Message :=
  match p.htmlParser msg.payloadText with
  | .error e => .error (.renderError e)
  | .ok html_str =>
    if p.allow_8bit then
      .ok (if msg.get_content_charset != some "us-ascii" then
            ((((MIMEText "" "html" none).set_payload html_str).set_charset
                msg.get_content_charset).replace_header "Content-Transfer-Encoding" "8bit")
           else
            (((MIMEText "" "html" none).set_payload html_str).set_charset
                msg.get_content_charset))
    else
      .ok (MIMEText html_str "html" msg.get_content_charset)

/-- Model of `MessageProcessor._add_html_to_plain`: reject containers and
non-`text/plain` content types with `MessageTypeError`, else return a fresh
alternative container holding the cloned text part and the HTML part. -/
def add_html_to_plain (p : MessageProcessor) (msg : Message) : Except ProcError Message :=
  if msg.is_multipart || msg.get_content_type != "text/plain" then
    .error (.messageTypeError
      ("Expected text/plain, but got " ++ msg.get_content_type ++ "."))
  else
    match create_html_message p msg with
    | .error e => .error e
    | .ok html_part =>
      .ok (((convert_text_to_alternative msg).attach
            (create_plain_message msg)).attach html_part)

/-- Model of `MessageProcessor._add_html_to_multipart`.  The second component
of the result is the state of the input message after the call, making the
imperative mutation of its first-child slot (`msg.get_payload()[0] = alt_msg`)
explicit: it equals the input on every failure path, and the returned value on
success.  The `MessageTypeError` strings are exactly those of the source; note
the second one reports `msg.get_content_type()` (the container's type). -/
def add_html_to_multipart (p : MessageProcessor) (msg : Message) :
    Except ProcError Message × Message :=
  if !msg.is_multipart then
    (.error (.messageTypeError
      ("Expected multipart/alternative, but got " ++ msg.get_content_type ++ ".")), msg)
  else
    match msg.children with
    | [] => (.error .indexError, msg)
    | text_part :: rest =>
      if text_part.get_content_type != "text/plain" then
        (.error (.messageTypeError
          ("Expected component 1 to be text/plain, but got "
            ++ msg.get_content_type ++ ".")), msg)
      else
        match create_html_message p text_part with
        | .error e => (.error e, msg)
        | .ok html_part =>
          (.ok (Message.multi msg.headers
              ((((MIMEMultipart "alternative").attach text_part).attach html_part) :: rest)),
           Message.multi msg.headers
              ((((MIMEMultipart "alternative").attach text_part).attach html_part) :: rest))

/-- Model of the public operation `generate_html_msg_from_file`, starting from
the already-parsed message (file parsing is the external collaborator's):
dispatch on `is_multipart`.  As in `add_html_to_multipart`, the second
component is the post-call state of the input message. -/
def generate_html_msg (p : MessageProcessor) (msg : Message) :
    Except ProcError Message × Message :=
  if msg.is_multipart then add_html_to_multipart p msg
  else (add_html_to_plain p msg, msg)

/-- The renderer used by the concrete examples below: a stand-in for the
injected text-to-HTML function. -/
def exRender : String → Except String String :=
  fun s => Except.ok ("<html>" ++ s ++ "</html>")

/-- An engine in standard (non-8-bit) mode with the example renderer. -/
def ex_proc : MessageProcessor := ⟨exRender, false⟩

/-- An engine in 8-bit mode with the example renderer. -/
def ex_proc8 : MessageProcessor := ⟨exRender, true⟩

/-- A renderer that always fails, for the error-propagation examples. -/
def exFailRender : String → Except String String :=
  fun _ => Except.error "boom"

/-- An engine whose renderer always fails. -/
def ex_proc_fail : MessageProcessor := ⟨exFailRender, false⟩

/-- Example text/plain leaf message. -/
def ex_plain : Message :=
  Message.leaf
    [("Content-Type", "text/plain; charset=\"us-ascii\""),
     ("Content-Transfer-Encoding", "7bit")]
    "hello"

/-- Example text/html leaf message. -/
def ex_html_leaf : Message :=
  Message.leaf
    [("Content-Type", "text/html; charset=\"us-ascii\""),
     ("Content-Transfer-Encoding", "7bit")]
    "<p>hi</p>"

/-- Example attachment leaf. -/
def ex_attachment : Message :=
  Message.leaf [("Content-Type", "application/pdf")] "data"

/-- A multipart/mixed container whose first child is text/html (the shape of
the C3 error case). -/
def ex_mixed_html_first : Message :=
  Message.multi [("Content-Type", "multipart/mixed; boundary=\"x\"")]
    [ex_html_leaf, ex_attachment]

/-- A multipart/mixed container whose first child is text/plain. -/
def ex_mixed : Message :=
  Message.multi [("Content-Type", "multipart/mixed; boundary=\"b\"")]
    [ex_plain, ex_attachment]

/-- A utf-8 text/plain leaf. -/
def ex_plain_utf8 : Message :=
  Message.leaf
    [("Content-Type", "text/plain; charset=\"utf-8\""),
     ("Content-Transfer-Encoding", "8bit")]
    "hola"

/-- Did the computation succeed? -/
def isOkB : Except ProcError Message → Bool
  | .ok _ => true
  | .error _ => false

/-- Is the result a `MessageTypeError`? -/
def isMTE : Except ProcError Message → Bool
  | .error (.messageTypeError _) => true
  | _ => false

/-- Extract the success value, with a default. -/
def exceptGetD (e : Except ProcError Message) (d : Message) : Message :=
  match e with
  | .ok m => m
  | .error _ => d

/-! ### Helper lemmas: headers as an association list -/

theorem headers_withHeaders (m : Message) (hs : List (String × String)) :
    (m.withHeaders hs).headers = hs := by
  cases m <;> rfl

theorem payloadText_withHeaders (m : Message) (hs : List (String × String)) :
    (m.withHeaders hs).payloadText = m.payloadText := by
  cases m <;> rfl

theorem is_multipart_withHeaders (m : Message) (hs : List (String × String)) :
    (m.withHeaders hs).is_multipart = m.is_multipart := by
  cases m <;> rfl

theorem headerMatches_pair (n a b : String) :
    headerMatches n (a, b) = (strLower a == strLower n) := rfl

theorem find?_replaceFirst_self (n v : String) (hs : List (String × String)) :
    (replaceFirst n v hs).find? (headerMatches n)
      = (hs.find? (headerMatches n)).map (fun e => (e.1, v)) := by
  induction hs with
  | nil => rfl
  | cons e rest ih =>
    cases he : headerMatches n e with
    | true =>
      have he' : headerMatches n (e.1, v) = true := he
      simp [replaceFirst, he, List.find?_cons_of_pos, he']
    | false =>
      simp [replaceFirst, he, List.find?_cons_of_neg, ih]

theorem find?_replaceFirst_other (n n' v : String) (h : strLower n' ≠ strLower n)
    (hs : List (String × String)) :
    (replaceFirst n v hs).find? (headerMatches n')
      = hs.find? (headerMatches n') := by
  induction hs with
  | nil => rfl
  | cons e rest ih =>
    cases he : headerMatches n e with
    | true =>
      have h1 : strLower e.1 = strLower n := eq_of_beq he
      have h2 : headerMatches n' e = false := by
        have : ¬ strLower e.1 = strLower n' := by
          rw [h1]; exact fun hc => h hc.symm
        simpa [headerMatches] using this
      have h2' : headerMatches n' (e.1, v) = false := h2
      simp [replaceFirst, he, List.find?_cons_of_neg, h2, h2']
    | false =>
      cases he' : headerMatches n' e with
      | true => simp [replaceFirst, he, List.find?_cons_of_pos, he']
      | false => simp [replaceFirst, he, List.find?_cons_of_neg, he', ih]

theorem find?_filter_none {α : Type} {p q : α → Bool} {l : List α}
    (h : l.find? p = none) :
    (l.filter q).find? p = none := by
  apply List.find?_eq_none.mpr
  intro x hx
  exact List.find?_eq_none.mp h x (List.mem_filter.mp hx).1

theorem find?_deleteHeader_self (n : String) (hs : List (String × String)) :
    (deleteHeader n hs).find? (headerMatches n) = none := by
  apply List.find?_eq_none.mpr
  intro x hx
  have hx2 := (List.mem_filter.mp hx).2
  intro hc
  rw [hc] at hx2
  exact Bool.noConfusion hx2

theorem find?_deleteHeader_other (n n' : String) (h : strLower n' ≠ strLower n)
    (hs : List (String × String)) :
    (deleteHeader n hs).find? (headerMatches n')
      = hs.find? (headerMatches n') := by
  induction hs with
  | nil => rfl
  | cons e rest ih =>
    cases he : headerMatches n e with
    | true =>
      have h1 : strLower e.1 = strLower n := eq_of_beq he
      have h2 : headerMatches n' e = false := by
        have : ¬ strLower e.1 = strLower n' := by
          rw [h1]; exact fun hc => h hc.symm
        simpa [headerMatches] using this
      simp [deleteHeader, List.filter_cons, he, List.find?_cons_of_neg, h2] at *
      exact ih
    | false =>
      cases he' : headerMatches n' e with
      | true => simp [deleteHeader, List.filter_cons, he, List.find?_cons_of_pos, he']
      | false => simp [deleteHeader, List.filter_cons, he, List.find?_cons_of_neg, he'] at *; exact ih

theorem get_setHeader_self (m : Message) (n v : String) :
    (m.setHeader n v).get n = some v := by
  unfold Message.setHeader
  by_cases hs : (m.get n).isSome
  · rw [if_pos hs]
    show (((m.withHeaders _).headers.find? (headerMatches n)).map Prod.snd) = some v
    rw [headers_withHeaders, find?_replaceFirst_self]
    cases hf : m.headers.find? (headerMatches n) with
    | none =>
      exfalso
      have : m.get n = none := by
        show ((m.headers.find? (headerMatches n)).map Prod.snd) = none
        rw [hf]; rfl
      rw [this] at hs
      exact Bool.noConfusion hs
    | some e => rfl
  · rw [if_neg hs]
    show (((m.withHeaders _).headers.find? (headerMatches n)).map Prod.snd) = some v
    rw [headers_withHeaders, List.find?_append]
    have hnone : m.headers.find? (headerMatches n) = none := by
      cases hf : m.headers.find? (headerMatches n) with
      | none => rfl
      | some e =>
        exfalso
        apply hs
        show ((m.headers.find? (headerMatches n)).map Prod.snd).isSome = true
        rw [hf]; rfl
    rw [hnone]
    have hone : List.find? (headerMatches n) [(n, v)] = some (n, v) := by
      simp [List.find?, headerMatches_pair, beq_self_eq_true]
    simp [hone]

theorem get_setHeader_other (m : Message) (n n' v : String)
    (h : strLower n' ≠ strLower n) :
    (m.setHeader n v).get n' = m.get n' := by
  unfold Message.setHeader
  by_cases hs : (m.get n).isSome
  · rw [if_pos hs]
    show (((m.withHeaders _).headers.find? (headerMatches n')).map Prod.snd) = m.get n'
    rw [headers_withHeaders, find?_replaceFirst_other n n' v h]
    rfl
  · rw [if_neg hs]
    show (((m.withHeaders _).headers.find? (headerMatches n')).map Prod.snd) = m.get n'
    rw [headers_withHeaders, List.find?_append]
    have hone : List.find? (headerMatches n') [(n, v)] = none := by
      have : headerMatches n' (n, v) = false := by
        have : ¬ strLower n = strLower n' := fun hc => h hc.symm
        simpa [headerMatches] using this
      simp [List.find?, this]
    rw [hone]
    cases hf : m.headers.find? (headerMatches n') <;> simp [Message.get, hf]

theorem get_delHeader_self (m : Message) (n : String) :
    (m.delHeader n).get n = none := by
  show (((m.withHeaders _).headers.find? (headerMatches n)).map Prod.snd) = none
  rw [headers_withHeaders, find?_deleteHeader_self]
  rfl

theorem get_delHeader_other (m : Message) (n n' : String)
    (h : strLower n' ≠ strLower n) :
    (m.delHeader n).get n' = m.get n' := by
  show (((m.withHeaders _).headers.find? (headerMatches n')).map Prod.snd) = m.get n'
  rw [headers_withHeaders, find?_deleteHeader_other n n' h]
  rfl

theorem payloadText_setHeader (m : Message) (n v : String) :
    (m.setHeader n v).payloadText = m.payloadText := by
  unfold Message.setHeader
  split <;> apply payloadText_withHeaders

theorem payloadText_delHeader (m : Message) (n : String) :
    (m.delHeader n).payloadText = m.payloadText := by
  apply payloadText_withHeaders

theorem get_clone_self (n : String) (src dst : Message) :
    (clone_header n src dst).get n = src.get n := by
  unfold clone_header
  cases h : src.get n with
  | some v => rw [get_setHeader_self]
  | none => rw [get_delHeader_self]

theorem get_clone_other (n n' : String) (h : strLower n' ≠ strLower n)
    (src dst : Message) :
    (clone_header n src dst).get n' = dst.get n' := by
  unfold clone_header
  cases hsrc : src.get n with
  | some v => exact get_setHeader_other dst n n' v h
  | none => exact get_delHeader_other dst n n' h

theorem payloadText_clone (n : String) (src dst : Message) :
    (clone_header n src dst).payloadText = dst.payloadText := by
  unfold clone_header
  cases hsrc : src.get n with
  | some v => apply payloadText_setHeader
  | none => apply payloadText_delHeader

/-! ### Lemmas about the message constructions of the two paths -/

theorem get_attach (m p : Message) (n : String) :
    (m.attach p).get n = m.get n := by
  cases m <;> rfl

theorem cpm_payloadText (msg : Message) :
    (create_plain_message msg).payloadText = msg.payloadText := by
  unfold create_plain_message
  rw [payloadText_clone, payloadText_clone]
  rfl

theorem lower_ct_ne_cte :
    strLower "Content-Type" ≠ strLower "Content-Transfer-Encoding" := by decide

theorem cpm_get_ct (msg : Message) :
    (create_plain_message msg).get "Content-Type" = msg.get "Content-Type" := by
  unfold create_plain_message
  rw [get_clone_other _ _ lower_ct_ne_cte, get_clone_self]

theorem cpm_get_cte (msg : Message) :
    (create_plain_message msg).get "Content-Transfer-Encoding"
      = msg.get "Content-Transfer-Encoding" := by
  unfold create_plain_message
  rw [get_clone_self]

theorem get_content_type_congr (m₁ m₂ : Message)
    (h : m₁.get "Content-Type" = m₂.get "Content-Type") :
    m₁.get_content_type = m₂.get_content_type := by
  unfold Message.get_content_type
  rw [h]

theorem conv_get_ct (msg : Message) :
    (convert_text_to_alternative msg).get "Content-Type"
      = some "multipart/alternative" := by
  show ((deleteHeader "Content-Transfer-Encoding" (deleteHeader "Content-Type" msg.headers)
      ++ [("Content-Type", "multipart/alternative")]).find?
        (headerMatches "Content-Type")).map Prod.snd = _
  rw [List.find?_append]
  have h1 : (deleteHeader "Content-Transfer-Encoding"
      (deleteHeader "Content-Type" msg.headers)).find? (headerMatches "Content-Type")
        = none :=
    find?_filter_none (find?_deleteHeader_self "Content-Type" msg.headers)
  have h2 : List.find? (headerMatches "Content-Type")
      [("Content-Type", "multipart/alternative")]
        = some ("Content-Type", "multipart/alternative") := by
    simp [List.find?, headerMatches_pair, beq_self_eq_true]
  rw [h1, h2]
  rfl

/-! ### Lemmas about content-type parsing -/

theorem splitOnCharAux_no_sep (sep : Char) (l₁ : List Char)
    (h : ∀ c ∈ l₁, (c == sep) = false) :
    ∀ l₂ acc, splitOnCharAux sep (l₁ ++ sep :: l₂) acc
      = (acc.reverse ++ l₁) :: splitOnCharAux sep l₂ [] := by
  induction l₁ with
  | nil =>
    intro l₂ acc
    simp [splitOnCharAux, beq_self_eq_true]
  | cons c cs ih =>
    intro l₂ acc
    have hc : (c == sep) = false := h c (by simp)
    rw [List.cons_append]
    show (if (c == sep) = true then _ else splitOnCharAux sep (cs ++ sep :: l₂) (c :: acc)) = _
    rw [if_neg (by simp [hc])]
    rw [ih (fun x hx => h x (by simp [hx])) l₂ (c :: acc)]
    simp

theorem string_append_assoc (a b c : String) : (a ++ b) ++ c = a ++ (b ++ c) := by
  apply String.ext
  simp [String.data_append, List.append_assoc]

theorem get_content_type_of_html_ct (m : Message) :
    (m.get "Content-Type" = some "text/html"
      ∨ ∃ v, m.get "Content-Type" = some ("text/html; charset=\"" ++ v)) →
    m.get_content_type = "text/html" := by
  intro hv
  unfold Message.get_content_type
  cases hv with
  | inl h => rw [h]; decide
  | inr h =>
    obtain ⟨v, h⟩ := h
    rw [h]
    show (let ctype := strLower (strStrip ((splitOnChar ';'
        ("text/html; charset=\"" ++ v)).headD ("text/html; charset=\"" ++ v)));
      if (splitOnChar '/' ctype).length == 2 then ctype else "text/plain") = "text/html"
    have hsplit : (splitOnChar ';' ("text/html; charset=\"" ++ v)).headD
        ("text/html; charset=\"" ++ v) = "text/html" := by
      unfold splitOnChar
      have hdata : ("text/html; charset=\"" ++ v).data
          = "text/html".data ++ ';' :: (" charset=\"".data ++ v.data) := by
        rw [String.data_append]
        show "text/html".data ++ ';' :: " charset=\"".data ++ v.data = _
        rw [List.append_assoc]
        rfl
      rw [hdata, splitOnCharAux_no_sep ';' ("text/html".data) (by decide)]
      rfl
    rw [hsplit]
    decide

theorem get_content_type_alt (m : Message)
    (h : m.get "Content-Type" = some "multipart/alternative") :
    m.get_content_type = "multipart/alternative" := by
  unfold Message.get_content_type
  rw [h]
  decide

/-! ### Lemmas about `create_html_message` -/

theorem chm_eq_error (p : MessageProcessor) (msg : Message) (e : String)
    (hr : p.htmlParser msg.payloadText = .error e) :
    create_html_message p msg = .error (.renderError e) := by
  unfold create_html_message
  rw [hr]

theorem chm_eq_ok (p : MessageProcessor) (msg : Message) (html_str : String)
    (hr : p.htmlParser msg.payloadText = .ok html_str) :
    create_html_message p msg
      = (if p.allow_8bit then
          .ok (if msg.get_content_charset != some "us-ascii" then
                ((((MIMEText "" "html" none).set_payload html_str).set_charset
                    msg.get_content_charset).replace_header "Content-Transfer-Encoding" "8bit")
               else
                (((MIMEText "" "html" none).set_payload html_str).set_charset
                    msg.get_content_charset))
         else
          .ok (MIMEText html_str "html" msg.get_content_charset)) := by
  unfold create_html_message
  rw [hr]

theorem chm_error_inv (p : MessageProcessor) (msg : Message) (e : ProcError)
    (h : create_html_message p msg = .error e) :
    ∃ s, p.htmlParser msg.payloadText = .error s ∧ e = .renderError s := by
  cases hr : p.htmlParser msg.payloadText with
  | error s =>
    rw [chm_eq_error p msg s hr] at h
    exact ⟨s, rfl, (Except.error.inj h).symm⟩
  | ok html_str =>
    exfalso
    rw [chm_eq_ok p msg html_str hr] at h
    cases hb : p.allow_8bit <;> rw [hb] at h <;> simp at h

theorem chm_isOk (p : MessageProcessor) (msg : Message) (h : String)
    (hr : p.htmlParser msg.payloadText = .ok h) :
    ∃ hp, create_html_message p msg = .ok hp := by
  rw [chm_eq_ok p msg h hr]
  cases hb : p.allow_8bit <;> simp

/-- The 8-bit path's intermediate message: `MIMEText("", 'html')` with its
payload set to the rendered string. -/
theorem set_payload_mimetext (s : String) :
    (MIMEText "" "html" none).set_payload s
      = Message.leaf
          [("Content-Type", "text/html; charset=\"us-ascii\""),
           ("MIME-Version", "1.0"),
           ("Content-Transfer-Encoding", "7bit")] s := rfl

theorem ctw_base_none :
    ctWithCharset "text/html; charset=\"us-ascii\"" none = "text/html" := rfl

theorem ctw_base_some (c : String) :
    ctWithCharset "text/html; charset=\"us-ascii\"" (some c)
      = ("text/html; charset=\"" ++ c) ++ "\"" := rfl

theorem set_charset_base (s : String) (cs : Option String) :
    (Message.leaf
        [("Content-Type", "text/html; charset=\"us-ascii\""),
         ("MIME-Version", "1.0"),
         ("Content-Transfer-Encoding", "7bit")] s).set_charset cs
      = Message.leaf
          [("Content-Type", ctWithCharset "text/html; charset=\"us-ascii\"" cs),
           ("MIME-Version", "1.0"),
           ("Content-Transfer-Encoding", "7bit")] s := rfl

theorem replace_cte_8bit (v s : String) :
    (Message.leaf
        [("Content-Type", v),
         ("MIME-Version", "1.0"),
         ("Content-Transfer-Encoding", "7bit")] s).replace_header
          "Content-Transfer-Encoding" "8bit"
      = Message.leaf
          [("Content-Type", v),
           ("MIME-Version", "1.0"),
           ("Content-Transfer-Encoding", "8bit")] s := rfl

theorem get_ct_leaf_cons (v : String) (hs : List (String × String)) (pay : String) :
    (Message.leaf (("Content-Type", v) :: hs) pay).get "Content-Type" = some v := by
  show ((List.find? (headerMatches "Content-Type")
      (("Content-Type", v) :: hs)).map Prod.snd) = some v
  rw [List.find?_cons_of_pos _ (by rw [headerMatches_pair]; decide)]
  rfl

theorem get_cte_leaf (v w s : String) :
    (Message.leaf
        [("Content-Type", v),
         ("MIME-Version", "1.0"),
         ("Content-Transfer-Encoding", w)] s).get "Content-Transfer-Encoding"
      = some w := by
  show ((List.find? (headerMatches "Content-Transfer-Encoding")
      [("Content-Type", v), ("MIME-Version", "1.0"),
       ("Content-Transfer-Encoding", w)]).map Prod.snd) = some w
  rw [List.find?_cons_of_neg _ (by rw [headerMatches_pair]; decide),
      List.find?_cons_of_neg _ (by rw [headerMatches_pair]; decide),
      List.find?_cons_of_pos _ (by rw [headerMatches_pair]; decide)]
  rfl

theorem mimetext_ct_val (text subtype : String) (cs : Option String) :
    (MIMEText text subtype cs).get "Content-Type"
      = some ("text/" ++ subtype ++ "; charset=\""
          ++ (match cs with
              | some c => c
              | none => if isAsciiStr text then "us-ascii" else "utf-8") ++ "\"") := by
  unfold MIMEText
  exact get_ct_leaf_cons _ _ _

theorem mimetext_html_ct (text : String) (cs : Option String) :
    ∃ w, (MIMEText text "html" cs).get "Content-Type"
      = some ("text/html; charset=\"" ++ w) := by
  cases cs with
  | some c =>
    refine ⟨c ++ "\"", ?_⟩
    rw [mimetext_ct_val]
    show some (("text/html; charset=\"" ++ c) ++ "\"")
      = some ("text/html; charset=\"" ++ (c ++ "\""))
    rw [string_append_assoc]
  | none =>
    cases ha : isAsciiStr text with
    | true =>
      refine ⟨"us-ascii" ++ "\"", ?_⟩
      rw [mimetext_ct_val, ha]
      rfl
    | false =>
      refine ⟨"utf-8" ++ "\"", ?_⟩
      rw [mimetext_ct_val, ha]
      rfl

theorem chm_ct (p : MessageProcessor) (msg hp : Message)
    (h : create_html_message p msg = .ok hp) :
    hp.get_content_type = "text/html" := by
  cases hr : p.htmlParser msg.payloadText with
  | error s =>
    rw [chm_eq_error p msg s hr] at h
    exact Except.noConfusion h
  | ok html_str =>
    rw [chm_eq_ok p msg html_str hr] at h
    cases hb : p.allow_8bit
    · -- standard mode
      rw [hb, if_neg (by decide)] at h
      have hhp := (Except.ok.inj h).symm
      subst hhp
      apply get_content_type_of_html_ct
      exact Or.inr (mimetext_html_ct html_str msg.get_content_charset)
    · -- 8-bit mode
      rw [hb, if_pos rfl] at h
      have hhp := (Except.ok.inj h).symm
      subst hhp
      apply get_content_type_of_html_ct
      rw [set_payload_mimetext]
      cases hcs : msg.get_content_charset with
      | none =>
        rw [if_pos (by decide), set_charset_base, ctw_base_none, replace_cte_8bit]
        exact Or.inl (get_ct_leaf_cons _ _ _)
      | some c =>
        by_cases hc : c = "us-ascii"
        · subst hc
          rw [if_neg (by decide), set_charset_base, ctw_base_some, string_append_assoc]
          exact Or.inr ⟨"us-ascii" ++ "\"", get_ct_leaf_cons _ _ _⟩
        · rw [if_pos (by simp [hc]), set_charset_base, ctw_base_some, replace_cte_8bit,
              string_append_assoc]
          exact Or.inr ⟨c ++ "\"", get_ct_leaf_cons _ _ _⟩

/-! ### Forward equations and inversions for the two paths -/

theorem ahp_eq_error (p : MessageProcessor) (msg : Message)
    (hc : (msg.is_multipart || msg.get_content_type != "text/plain") = true) :
    add_html_to_plain p msg
      = .error (.messageTypeError
          ("Expected text/plain, but got " ++ msg.get_content_type ++ ".")) := by
  unfold add_html_to_plain
  rw [if_pos hc]

theorem ahp_eq_ok (p : MessageProcessor) (msg hp : Message)
    (hm : msg.is_multipart = false) (hct : msg.get_content_type = "text/plain")
    (hchm : create_html_message p msg = .ok hp) :
    add_html_to_plain p msg
      = .ok (((convert_text_to_alternative msg).attach
              (create_plain_message msg)).attach hp) := by
  unfold add_html_to_plain
  rw [hm, hct, if_neg (by decide), hchm]

theorem ahp_eq_chm_error (p : MessageProcessor) (msg : Message) (e : ProcError)
    (hm : msg.is_multipart = false) (hct : msg.get_content_type = "text/plain")
    (hchm : create_html_message p msg = .error e) :
    add_html_to_plain p msg = .error e := by
  unfold add_html_to_plain
  rw [hm, hct, if_neg (by decide), hchm]

theorem ahp_ok_inv (p : MessageProcessor) (msg res : Message)
    (h : add_html_to_plain p msg = .ok res) :
    msg.is_multipart = false ∧ msg.get_content_type = "text/plain" ∧
    ∃ hp, create_html_message p msg = .ok hp ∧
      res = ((convert_text_to_alternative msg).attach
              (create_plain_message msg)).attach hp := by
  by_cases hc : (msg.is_multipart || msg.get_content_type != "text/plain") = true
  · rw [ahp_eq_error p msg hc] at h
    exact Except.noConfusion h
  · have hc' : msg.is_multipart = false ∧ msg.get_content_type = "text/plain" := by
      simpa using hc
    refine ⟨hc'.1, hc'.2, ?_⟩
    cases hchm : create_html_message p msg with
    | error e =>
      rw [ahp_eq_chm_error p msg e hc'.1 hc'.2 hchm] at h
      exact Except.noConfusion h
    | ok hp =>
      rw [ahp_eq_ok p msg hp hc'.1 hc'.2 hchm] at h
      exact ⟨hp, rfl, (Except.ok.inj h).symm⟩

theorem ahm_eq_nonmultipart (p : MessageProcessor) (hs : List (String × String))
    (pay : String) :
    add_html_to_multipart p (Message.leaf hs pay)
      = (.error (.messageTypeError
          ("Expected multipart/alternative, but got "
            ++ (Message.leaf hs pay).get_content_type ++ ".")),
         Message.leaf hs pay) := by
  unfold add_html_to_multipart
  rw [if_pos (by rfl)]

theorem ahm_eq_empty (p : MessageProcessor) (hs : List (String × String)) :
    add_html_to_multipart p (Message.multi hs [])
      = (.error .indexError, Message.multi hs []) := by
  unfold add_html_to_multipart
  rw [if_neg (fun h => Bool.noConfusion h)]
  simp only [Message.children]

theorem ahm_eq_ct_error (p : MessageProcessor) (hs : List (String × String))
    (c : Message) (rest : List Message)
    (hct : (c.get_content_type != "text/plain") = true) :
    add_html_to_multipart p (Message.multi hs (c :: rest))
      = (.error (.messageTypeError
          ("Expected component 1 to be text/plain, but got "
            ++ (Message.multi hs (c :: rest)).get_content_type ++ ".")),
         Message.multi hs (c :: rest)) := by
  unfold add_html_to_multipart
  rw [if_neg (fun h => Bool.noConfusion h)]
  simp only [Message.children, Message.headers]
  rw [if_pos hct]

theorem ahm_eq_chm_error (p : MessageProcessor) (hs : List (String × String))
    (c : Message) (rest : List Message) (e : ProcError)
    (hct : c.get_content_type = "text/plain")
    (hchm : create_html_message p c = .error e) :
    add_html_to_multipart p (Message.multi hs (c :: rest))
      = (.error e, Message.multi hs (c :: rest)) := by
  unfold add_html_to_multipart
  rw [if_neg (fun h => Bool.noConfusion h)]
  simp only [Message.children, Message.headers]
  rw [hct, if_neg (by decide), hchm]

theorem ahm_eq_ok (p : MessageProcessor) (hs : List (String × String))
    (c : Message) (rest : List Message) (hp : Message)
    (hct : c.get_content_type = "text/plain")
    (hchm : create_html_message p c = .ok hp) :
    add_html_to_multipart p (Message.multi hs (c :: rest))
      = (.ok (Message.multi hs
            ((((MIMEMultipart "alternative").attach c).attach hp) :: rest)),
         Message.multi hs
            ((((MIMEMultipart "alternative").attach c).attach hp) :: rest)) := by
  unfold add_html_to_multipart
  rw [if_neg (fun h => Bool.noConfusion h)]
  simp only [Message.children, Message.headers]
  rw [hct, if_neg (by decide), hchm]

theorem ahm_ok_inv (p : MessageProcessor) (msg res : Message)
    (h : (add_html_to_multipart p msg).1 = .ok res) :
    ∃ hs c rest hp, msg = Message.multi hs (c :: rest) ∧
      c.get_content_type = "text/plain" ∧
      create_html_message p c = .ok hp ∧
      res = Message.multi hs
        ((((MIMEMultipart "alternative").attach c).attach hp) :: rest) := by
  cases msg with
  | leaf hs pay =>
    rw [ahm_eq_nonmultipart] at h
    exact Except.noConfusion h
  | multi hs cs =>
    cases cs with
    | nil =>
      rw [ahm_eq_empty] at h
      exact Except.noConfusion h
    | cons c rest =>
      by_cases hct : c.get_content_type = "text/plain"
      · cases hchm : create_html_message p c with
        | error e =>
          rw [ahm_eq_chm_error p hs c rest e hct hchm] at h
          exact Except.noConfusion h
        | ok hp =>
          rw [ahm_eq_ok p hs c rest hp hct hchm] at h
          exact ⟨hs, c, rest, hp, rfl, hct, hchm, (Except.ok.inj h).symm⟩
      · rw [ahm_eq_ct_error p hs c rest (by simp [hct])] at h
        exact Except.noConfusion h

theorem generate_leaf (p : MessageProcessor) (hs : List (String × String))
    (pay : String) :
    generate_html_msg p (Message.leaf hs pay)
      = (add_html_to_plain p (Message.leaf hs pay), Message.leaf hs pay) := by
  unfold generate_html_msg
  rw [if_neg (fun h => Bool.noConfusion h)]

theorem generate_multi (p : MessageProcessor) (hs : List (String × String))
    (cs : List Message) :
    generate_html_msg p (Message.multi hs cs)
      = add_html_to_multipart p (Message.multi hs cs) := by
  unfold generate_html_msg
  rw [if_pos (by rfl)]

/-! ### A helper for distinguishing the error strings of the raise sites -/

theorem append3_ne (a b x y u v : String) (i : Nat)
    (ha : i < a.data.length) (hb : i < b.data.length)
    (hne : a.data.getD i ' ' ≠ b.data.getD i ' ') :
    a ++ x ++ u ≠ b ++ y ++ v := by
  intro he
  apply hne
  have hd : a.data ++ (x.data ++ u.data) = b.data ++ (y.data ++ v.data) := by
    have h0 := congrArg String.data he
    rw [String.data_append, String.data_append, String.data_append,
        String.data_append, List.append_assoc, List.append_assoc] at h0
    exact h0
  have key : ∀ (l w : List Char), i < l.length → (l ++ w).getD i ' ' = l.getD i ' ' := by
    intro l w hw
    rw [List.getD_eq_getElem?_getD, List.getD_eq_getElem?_getD,
        List.getElem?_append, if_pos hw]
  calc a.data.getD i ' '
      = (a.data ++ (x.data ++ u.data)).getD i ' ' := (key _ _ ha).symm
    _ = (b.data ++ (y.data ++ v.data)).getD i ' ' := by rw [hd]
    _ = b.data.getD i ' ' := key _ _ hb

/-! ### Congruence in the rendering function -/

theorem chm_congr (p₁ p₂ : MessageProcessor) (msg : Message)
    (hb : p₁.allow_8bit = p₂.allow_8bit)
    (hagree : p₁.htmlParser msg.payloadText = p₂.htmlParser msg.payloadText) :
    create_html_message p₁ msg = create_html_message p₂ msg := by
  unfold create_html_message
  rw [hagree, hb]

theorem ahp_congr (p₁ p₂ : MessageProcessor) (msg : Message)
    (hb : p₁.allow_8bit = p₂.allow_8bit)
    (hagree : p₁.htmlParser msg.payloadText = p₂.htmlParser msg.payloadText) :
    add_html_to_plain p₁ msg = add_html_to_plain p₂ msg := by
  unfold add_html_to_plain
  rw [chm_congr p₁ p₂ msg hb hagree]

theorem ahm_congr (p₁ p₂ : MessageProcessor) (msg : Message)
    (hb : p₁.allow_8bit = p₂.allow_8bit)
    (hchild : ∀ hs c rest, msg = Message.multi hs (c :: rest) →
      p₁.htmlParser c.payloadText = p₂.htmlParser c.payloadText) :
    add_html_to_multipart p₁ msg = add_html_to_multipart p₂ msg := by
  cases msg with
  | leaf hs pay => rw [ahm_eq_nonmultipart, ahm_eq_nonmultipart]
  | multi hs cs =>
    cases cs with
    | nil => rw [ahm_eq_empty, ahm_eq_empty]
    | cons c rest =>
      have hagree := hchild hs c rest rfl
      by_cases hct : c.get_content_type = "text/plain"
      · have hcongr := chm_congr p₁ p₂ c hb hagree
        cases hchm : create_html_message p₁ c with
        | error e =>
          rw [ahm_eq_chm_error p₁ hs c rest e hct hchm,
              ahm_eq_chm_error p₂ hs c rest e hct (hcongr.symm.trans hchm)]
        | ok hp =>
          rw [ahm_eq_ok p₁ hs c rest hp hct hchm,
              ahm_eq_ok p₂ hs c rest hp hct (hcongr.symm.trans hchm)]
      · rw [ahm_eq_ct_error p₁ hs c rest (by simp [hct]),
            ahm_eq_ct_error p₂ hs c rest (by simp [hct])]

/-! ### The claims -/

/-- C1: for every non-container message of content type text/plain (whose
rendering succeeds), the transformation returns a multipart/alternative
container with exactly two children: first a text/plain child whose payload
and whose Content-Type and Content-Transfer-Encoding headers are identical to
the input's, and second a text/html child. -/
theorem C1_plain_path (p : MessageProcessor) (hs : List (String × String))
    (pay h : String)
    (hct : (Message.leaf hs pay).get_content_type = "text/plain")
    (hr : p.htmlParser pay = .ok h) :
    ∃ res, (generate_html_msg p (Message.leaf hs pay)).1 = .ok res ∧
      res.is_multipart = true ∧
      res.get_content_type = "multipart/alternative" ∧
      ∃ t hp, res.children = [t, hp] ∧
        t.payloadText = pay ∧
        t.get "Content-Type" = (Message.leaf hs pay).get "Content-Type" ∧
        t.get "Content-Transfer-Encoding"
          = (Message.leaf hs pay).get "Content-Transfer-Encoding" ∧
        t.get_content_type = "text/plain" ∧
        hp.get_content_type = "text/html" := by
  obtain ⟨hp, hchm⟩ := chm_isOk p (Message.leaf hs pay) h hr
  refine ⟨((convert_text_to_alternative (Message.leaf hs pay)).attach
      (create_plain_message (Message.leaf hs pay))).attach hp,
    ?_, rfl, ?_, create_plain_message (Message.leaf hs pay), hp,
    rfl, ?_, cpm_get_ct _, cpm_get_cte _, ?_, chm_ct p _ hp hchm⟩
  · rw [generate_leaf]
    show add_html_to_plain p (Message.leaf hs pay) = _
    rw [ahp_eq_ok p (Message.leaf hs pay) hp rfl hct hchm]
  · apply get_content_type_alt
    rw [get_attach, get_attach]
    exact conv_get_ct _
  · rw [cpm_payloadText]
    rfl
  · exact (get_content_type_congr _ _ (cpm_get_ct _)).trans hct

/-- Witness for C1 at a concrete text/plain message and renderer. -/
theorem C1_plain_path_witness :
    ∃ res, (generate_html_msg ex_proc (Message.leaf
        [("Content-Type", "text/plain; charset=\"us-ascii\""),
         ("Content-Transfer-Encoding", "7bit")] "hello")).1 = .ok res ∧
      res.is_multipart = true ∧
      res.get_content_type = "multipart/alternative" ∧
      ∃ t hp, res.children = [t, hp] ∧
        t.payloadText = "hello" ∧
        t.get "Content-Type" = (Message.leaf
          [("Content-Type", "text/plain; charset=\"us-ascii\""),
           ("Content-Transfer-Encoding", "7bit")] "hello").get "Content-Type" ∧
        t.get "Content-Transfer-Encoding" = (Message.leaf
          [("Content-Type", "text/plain; charset=\"us-ascii\""),
           ("Content-Transfer-Encoding", "7bit")] "hello").get "Content-Transfer-Encoding" ∧
        t.get_content_type = "text/plain" ∧
        hp.get_content_type = "text/html" :=
  C1_plain_path ex_proc
    [("Content-Type", "text/plain; charset=\"us-ascii\""),
     ("Content-Transfer-Encoding", "7bit")]
    "hello" "<html>hello</html>" (by decide) rfl

/-- C2: for every container message whose first child is text/plain (and whose
rendering succeeds), the transformation returns a container with the same
headers and the same number of children, in which the first child has been
replaced by a multipart/alternative container holding the original text child
then an HTML child, and the remaining children are the very same list. -/
theorem C2_multipart_path (p : MessageProcessor) (hs : List (String × String))
    (c : Message) (rest : List Message) (h : String)
    (hct : c.get_content_type = "text/plain")
    (hr : p.htmlParser c.payloadText = .ok h) :
    ∃ hp, (generate_html_msg p (Message.multi hs (c :: rest))).1
        = .ok (Message.multi hs
            ((((MIMEMultipart "alternative").attach c).attach hp) :: rest)) ∧
      (Message.multi hs
          ((((MIMEMultipart "alternative").attach c).attach hp) :: rest)).children.length
        = (Message.multi hs (c :: rest)).children.length ∧
      (((MIMEMultipart "alternative").attach c).attach hp).get_content_type
        = "multipart/alternative" ∧
      (((MIMEMultipart "alternative").attach c).attach hp).children = [c, hp] ∧
      hp.get_content_type = "text/html" := by
  obtain ⟨hp, hchm⟩ := chm_isOk p c h hr
  refine ⟨hp, ?_, ?_, ?_, rfl, chm_ct p c hp hchm⟩
  · rw [generate_multi, ahm_eq_ok p hs c rest hp hct hchm]
  · simp [Message.children]
  · apply get_content_type_alt
    rw [get_attach, get_attach]
    show ((List.find? (headerMatches "Content-Type")
        [("Content-Type", "multipart/" ++ "alternative"),
         ("MIME-Version", "1.0")]).map Prod.snd) = some "multipart/alternative"
    rw [List.find?_cons_of_pos _ (by rw [headerMatches_pair]; decide)]
    rfl

/-- Witness for C2 at a concrete multipart/mixed message and renderer. -/
theorem C2_multipart_path_witness :
    ∃ hp, (generate_html_msg ex_proc (Message.multi
        [("Content-Type", "multipart/mixed; boundary=\"b\"")]
        (ex_plain :: [ex_attachment]))).1
        = .ok (Message.multi [("Content-Type", "multipart/mixed; boundary=\"b\"")]
            ((((MIMEMultipart "alternative").attach ex_plain).attach hp) :: [ex_attachment])) ∧
      (Message.multi [("Content-Type", "multipart/mixed; boundary=\"b\"")]
          ((((MIMEMultipart "alternative").attach ex_plain).attach hp) :: [ex_attachment])).children.length
        = (Message.multi [("Content-Type", "multipart/mixed; boundary=\"b\"")]
            (ex_plain :: [ex_attachment])).children.length ∧
      (((MIMEMultipart "alternative").attach ex_plain).attach hp).get_content_type
        = "multipart/alternative" ∧
      (((MIMEMultipart "alternative").attach ex_plain).attach hp).children = [ex_plain, hp] ∧
      hp.get_content_type = "text/html" :=
  C2_multipart_path ex_proc [("Content-Type", "multipart/mixed; boundary=\"b\"")]
    ex_plain [ex_attachment] "<html>hello</html>" (by decide) rfl

/-- C3: the source does raise MessageTypeError on a multipart/mixed container
whose first child is text/html, but the error string reports the container's
content type "multipart/mixed", not the first child's "text/html" — despite
the error text reading "Expected component 1 to be ...".  The claim (and the
spec's "carries the actual content type observed") describes the evident
intent; the code passes `msg.get_content_type()` instead of
`text_part.get_content_type()`. -/
theorem C3_reported_type :
    (generate_html_msg ex_proc ex_mixed_html_first).1
      = .error (.messageTypeError
          "Expected component 1 to be text/plain, but got multipart/mixed.")
    ∧ ex_mixed_html_first.children.headD ex_attachment = ex_html_leaf
    ∧ ex_html_leaf.get_content_type = "text/html"
    ∧ ex_mixed_html_first.get_content_type = "multipart/mixed" :=
  ⟨rfl, rfl, rfl, rfl⟩

/-- C4 counterexample: re-applying the transformation to the
multipart/alternative message produced by the plain-body path does NOT raise
MessageTypeError — it succeeds.  The first application of the transformation
to a concrete text/plain leaf succeeds, and the second application to its
result is not a MessageTypeError but another success. -/
theorem C4_counterexample :
    isOkB (generate_html_msg ex_proc ex_plain).1 = true ∧
    isMTE (generate_html_msg ex_proc
        (exceptGetD (generate_html_msg ex_proc ex_plain).1 ex_plain)).1 = false ∧
    isOkB (generate_html_msg ex_proc
        (exceptGetD (generate_html_msg ex_proc ex_plain).1 ex_plain)).1 = true :=
  ⟨rfl, rfl, rfl⟩

/-- C4 amended: re-applying the transformation to the plain-body path's result
does not raise.  Since the produced alternative container's first child is the
preserved text/plain part, the multipart path accepts it and succeeds again
(nesting the text part inside a second alternative container), so the
operation is not idempotent but also does not reject the post-transformation
shape. -/
theorem C4_amended_reapply (p : MessageProcessor) (hs : List (String × String))
    (pay h : String)
    (hct : (Message.leaf hs pay).get_content_type = "text/plain")
    (hr : p.htmlParser pay = .ok h) :
    isMTE (generate_html_msg p (exceptGetD
        (generate_html_msg p (Message.leaf hs pay)).1 (Message.leaf hs pay))).1 = false
    ∧ isOkB (generate_html_msg p (exceptGetD
        (generate_html_msg p (Message.leaf hs pay)).1 (Message.leaf hs pay))).1 = true := by
  obtain ⟨hp, hchm⟩ := chm_isOk p (Message.leaf hs pay) h hr
  have h1 : (generate_html_msg p (Message.leaf hs pay)).1
      = .ok (((convert_text_to_alternative (Message.leaf hs pay)).attach
          (create_plain_message (Message.leaf hs pay))).attach hp) := by
    rw [generate_leaf]
    show add_html_to_plain p (Message.leaf hs pay) = _
    rw [ahp_eq_ok p (Message.leaf hs pay) hp rfl hct hchm]
  rw [h1]
  have h2 : exceptGetD (Except.ok (((convert_text_to_alternative
      (Message.leaf hs pay)).attach
        (create_plain_message (Message.leaf hs pay))).attach hp))
      (Message.leaf hs pay)
      = Message.multi
          (deleteHeader "Content-Transfer-Encoding"
            (deleteHeader "Content-Type" hs)
            ++ [("Content-Type", "multipart/alternative")])
          [create_plain_message (Message.leaf hs pay), hp] := rfl
  rw [h2]
  have tct : (create_plain_message (Message.leaf hs pay)).get_content_type
      = "text/plain" :=
    (get_content_type_congr _ _ (cpm_get_ct _)).trans hct
  obtain ⟨hp₂, hchm₂⟩ := chm_isOk p (create_plain_message (Message.leaf hs pay)) h
    (by rw [cpm_payloadText]; exact hr)
  rw [generate_multi, ahm_eq_ok p _ _ [hp] hp₂ tct hchm₂]
  exact ⟨rfl, rfl⟩

/-- Witness for the amended C4 at a concrete message and renderer. -/
theorem C4_amended_reapply_witness :
    isMTE (generate_html_msg ex_proc (exceptGetD
        (generate_html_msg ex_proc (Message.leaf
          [("Content-Type", "text/plain; charset=\"us-ascii\""),
           ("Content-Transfer-Encoding", "7bit")] "hello")).1
        (Message.leaf
          [("Content-Type", "text/plain; charset=\"us-ascii\""),
           ("Content-Transfer-Encoding", "7bit")] "hello"))).1 = false
    ∧ isOkB (generate_html_msg ex_proc (exceptGetD
        (generate_html_msg ex_proc (Message.leaf
          [("Content-Type", "text/plain; charset=\"us-ascii\""),
           ("Content-Transfer-Encoding", "7bit")] "hello")).1
        (Message.leaf
          [("Content-Type", "text/plain; charset=\"us-ascii\""),
           ("Content-Transfer-Encoding", "7bit")] "hello"))).1 = true :=
  C4_amended_reapply ex_proc
    [("Content-Type", "text/plain; charset=\"us-ascii\""),
     ("Content-Transfer-Encoding", "7bit")]
    "hello" "<html>hello</html>" (by decide) rfl

/-- C5: in 8-bit mode, for a source leaf of charset utf-8 the produced HTML
leaf's Content-Transfer-Encoding header reads exactly "8bit"; for charset
us-ascii it keeps the "7bit" value the charset assignment of the empty
`MIMEText` set, with no "8bit" override. -/
theorem C5_8bit_cte (p : MessageProcessor) (msg : Message) (h : String)
    (hbit : p.allow_8bit = true)
    (hr : p.htmlParser msg.payloadText = .ok h) :
    (msg.get_content_charset = some "utf-8" →
      ∃ hp, create_html_message p msg = .ok hp ∧
        hp.get "Content-Transfer-Encoding" = some "8bit")
    ∧ (msg.get_content_charset = some "us-ascii" →
      ∃ hp, create_html_message p msg = .ok hp ∧
        hp.get "Content-Transfer-Encoding" = some "7bit") := by
  constructor
  · intro hcs
    rw [chm_eq_ok p msg h hr, hbit, if_pos rfl, hcs]
    refine ⟨_, rfl, ?_⟩
    rw [if_pos (by decide), set_payload_mimetext, set_charset_base, replace_cte_8bit]
    exact get_cte_leaf _ _ _
  · intro hcs
    rw [chm_eq_ok p msg h hr, hbit, if_pos rfl, hcs]
    refine ⟨_, rfl, ?_⟩
    rw [if_neg (by decide), set_payload_mimetext, set_charset_base]
    exact get_cte_leaf _ _ _

/-- Witness for C5: the utf-8 case at a concrete message. -/
theorem C5_8bit_cte_witness :
    ∃ hp, create_html_message ex_proc8 ex_plain_utf8 = .ok hp ∧
      hp.get "Content-Transfer-Encoding" = some "8bit" :=
  (C5_8bit_cte ex_proc8 ex_plain_utf8 "<html>hola</html>" rfl rfl).1 rfl

/-- C6: in the multipart path, a failure of the rendering function propagates
to the caller unchanged (as a render error carrying the renderer's own error
value, not caught or wrapped), and the post-call state of the input message
equals the input: the first-child slot is only mutated after the replacement
container has been fully constructed. -/
theorem C6_render_failure (p : MessageProcessor) (hs : List (String × String))
    (c : Message) (rest : List Message) (e : String)
    (hct : c.get_content_type = "text/plain")
    (hr : p.htmlParser c.payloadText = .error e) :
    generate_html_msg p (Message.multi hs (c :: rest))
      = (.error (.renderError e), Message.multi hs (c :: rest)) := by
  rw [generate_multi]
  exact ahm_eq_chm_error p hs c rest (.renderError e) hct (chm_eq_error p c e hr)

/-- Witness for C6 at a concrete multipart message and a failing renderer. -/
theorem C6_render_failure_witness :
    generate_html_msg ex_proc_fail (Message.multi
        [("Content-Type", "multipart/mixed; boundary=\"b\"")]
        (ex_plain :: [ex_attachment]))
      = (.error (.renderError "boom"), Message.multi
          [("Content-Type", "multipart/mixed; boundary=\"b\"")]
          (ex_plain :: [ex_attachment])) :=
  C6_render_failure ex_proc_fail
    [("Content-Type", "multipart/mixed; boundary=\"b\"")]
    ex_plain [ex_attachment] "boom" (by decide) rfl

/-- C7: whenever the transformation succeeds, the alternative container it
produced (the result itself on the plain path, the result's first child on the
multipart path) holds exactly a text/plain part followed by a text/html part:
the text part's position is strictly before the HTML part's. -/
theorem C7_ordering (p : MessageProcessor) (msg res : Message)
    (h : (generate_html_msg p msg).1 = .ok res) :
    (msg.is_multipart = false →
      ∃ altHs t hp, res = Message.multi altHs [t, hp] ∧
        t.get_content_type = "text/plain" ∧
        hp.get_content_type = "text/html")
    ∧ (msg.is_multipart = true →
      ∃ hs c rest altHs hp,
        res = Message.multi hs (Message.multi altHs [c, hp] :: rest) ∧
        c.get_content_type = "text/plain" ∧
        hp.get_content_type = "text/html") := by
  cases msg with
  | leaf hs pay =>
    constructor
    · intro _
      rw [generate_leaf] at h
      have h' : add_html_to_plain p (Message.leaf hs pay) = .ok res := h
      obtain ⟨hm, hct, hp, hchm, hres⟩ := ahp_ok_inv p _ res h'
      subst hres
      exact ⟨_, create_plain_message (Message.leaf hs pay), hp, rfl,
        (get_content_type_congr _ _ (cpm_get_ct _)).trans hct,
        chm_ct p _ hp hchm⟩
    · intro hmm
      exact Bool.noConfusion hmm
  | multi hs cs =>
    constructor
    · intro hmm
      exact Bool.noConfusion hmm
    · intro _
      rw [generate_multi] at h
      obtain ⟨hs', c, rest, hp, heq, hct, hchm, hres⟩ := ahm_ok_inv p _ res h
      subst hres
      exact ⟨hs', c, rest, _, hp, rfl, hct, chm_ct p c hp hchm⟩

/-- Witness for C7 at a concrete text/plain message. -/
theorem C7_ordering_witness :
    ((Message.leaf
        [("Content-Type", "text/plain; charset=\"us-ascii\""),
         ("Content-Transfer-Encoding", "7bit")] "hello").is_multipart = false →
      ∃ altHs t hp, exceptGetD (generate_html_msg ex_proc (Message.leaf
          [("Content-Type", "text/plain; charset=\"us-ascii\""),
           ("Content-Transfer-Encoding", "7bit")] "hello")).1 ex_plain
          = Message.multi altHs [t, hp] ∧
        t.get_content_type = "text/plain" ∧
        hp.get_content_type = "text/html")
    ∧ ((Message.leaf
        [("Content-Type", "text/plain; charset=\"us-ascii\""),
         ("Content-Transfer-Encoding", "7bit")] "hello").is_multipart = true →
      ∃ hs c rest altHs hp,
        exceptGetD (generate_html_msg ex_proc (Message.leaf
          [("Content-Type", "text/plain; charset=\"us-ascii\""),
           ("Content-Transfer-Encoding", "7bit")] "hello")).1 ex_plain
          = Message.multi hs (Message.multi altHs [c, hp] :: rest) ∧
        c.get_content_type = "text/plain" ∧
        hp.get_content_type = "text/html") :=
  C7_ordering ex_proc
    (Message.leaf
      [("Content-Type", "text/plain; charset=\"us-ascii\""),
       ("Content-Transfer-Encoding", "7bit")] "hello")
    (exceptGetD (generate_html_msg ex_proc (Message.leaf
      [("Content-Type", "text/plain; charset=\"us-ascii\""),
       ("Content-Transfer-Encoding", "7bit")] "hello")).1 ex_plain)
    rfl

/-- C8: the rendering function is consulted exactly on the original text
leaf's raw payload: two engines with the same 8-bit flag whose renderers agree
on the input leaf's payload (on the plain path) or on the first child's
payload (on the multipart path) produce identical transformation results, so
the rendering input round-trips from the original body. -/
theorem C8_render_input (p₁ p₂ : MessageProcessor) (msg : Message)
    (hb : p₁.allow_8bit = p₂.allow_8bit)
    (hleaf : msg.is_multipart = false →
      p₁.htmlParser msg.payloadText = p₂.htmlParser msg.payloadText)
    (hchild : ∀ hs c rest, msg = Message.multi hs (c :: rest) →
      p₁.htmlParser c.payloadText = p₂.htmlParser c.payloadText) :
    generate_html_msg p₁ msg = generate_html_msg p₂ msg := by
  cases msg with
  | leaf hs pay =>
    rw [generate_leaf, generate_leaf,
      ahp_congr p₁ p₂ (Message.leaf hs pay) hb (hleaf rfl)]
  | multi hs cs =>
    rw [generate_multi, generate_multi]
    exact ahm_congr p₁ p₂ (Message.multi hs cs) hb
      (fun hs' c rest heq => hchild hs' c rest heq)

/-- Witness for C8: a renderer and a differently-written renderer that agree
on the concrete payload yield the same result. -/
theorem C8_render_input_witness :
    generate_html_msg ex_proc ex_plain
      = generate_html_msg ⟨fun s => Except.ok ("<html>" ++ s ++ "</html>"), false⟩ ex_plain :=
  C8_render_input ex_proc ⟨fun s => Except.ok ("<html>" ++ s ++ "</html>"), false⟩
    ex_plain rfl (fun _ => rfl) (fun _ _ _ heq => Message.noConfusion heq)

/-- C9: the plain-body path raises MessageTypeError carrying the unexpected
content type exactly when the input is a container or its content type is not
"text/plain"; otherwise it raises no MessageTypeError, and succeeds whenever
the renderer does. -/
theorem C9_plain_precondition (p : MessageProcessor) (msg : Message) :
    ((msg.is_multipart = true ∨ msg.get_content_type ≠ "text/plain") →
      add_html_to_plain p msg
        = .error (.messageTypeError
            ("Expected text/plain, but got " ++ msg.get_content_type ++ ".")))
    ∧ (msg.is_multipart = false → msg.get_content_type = "text/plain" →
        isMTE (add_html_to_plain p msg) = false
        ∧ (∀ h, p.htmlParser msg.payloadText = .ok h →
            isOkB (add_html_to_plain p msg) = true)) := by
  constructor
  · intro hc
    apply ahp_eq_error
    cases hc with
    | inl h => rw [h]; rfl
    | inr h =>
      have hb : (msg.get_content_type != "text/plain") = true := by
        simpa using h
      rw [hb, Bool.or_true]
  · intro hm hct
    constructor
    · cases hchm : create_html_message p msg with
      | error e =>
        obtain ⟨s, hrs, he⟩ := chm_error_inv p msg e hchm
        rw [ahp_eq_chm_error p msg e hm hct hchm, he]
        rfl
      | ok hp =>
        rw [ahp_eq_ok p msg hp hm hct hchm]
        rfl
    · intro h hr
      obtain ⟨hp, hchm⟩ := chm_isOk p msg h hr
      rw [ahp_eq_ok p msg hp hm hct hchm]
      rfl

/-- Witness for C9: the error side at a concrete text/html leaf (reporting
"text/html") and the success side at a concrete text/plain leaf. -/
theorem C9_plain_precondition_witness :
    add_html_to_plain ex_proc ex_html_leaf
      = .error (.messageTypeError
          ("Expected text/plain, but got " ++ ex_html_leaf.get_content_type ++ ".")) ∧
    isMTE (add_html_to_plain ex_proc ex_plain) = false :=
  ⟨(C9_plain_precondition ex_proc ex_html_leaf).1 (Or.inr (by decide)),
   ((C9_plain_precondition ex_proc ex_plain).2 rfl (by decide)).1⟩

/-- C10: the non-container error branch of the multipart path is unreachable
through the public operation: the dispatcher routes a message to the multipart
path only when it is a container, so the public operation never returns the
"Expected multipart/alternative" MessageTypeError, whatever content type it
would report. -/
theorem C10_nonmultipart_branch_unreachable (p : MessageProcessor)
    (msg : Message) (ct : String) :
    (generate_html_msg p msg).1
      ≠ .error (.messageTypeError
          ("Expected multipart/alternative, but got " ++ ct ++ ".")) := by
  cases msg with
  | leaf hs pay =>
    rw [generate_leaf]
    show add_html_to_plain p (Message.leaf hs pay) ≠ _
    by_cases hc : ((Message.leaf hs pay).is_multipart
        || (Message.leaf hs pay).get_content_type != "text/plain") = true
    · rw [ahp_eq_error p _ hc]
      intro hcontra
      exact append3_ne "Expected text/plain, but got "
        "Expected multipart/alternative, but got "
        (Message.leaf hs pay).get_content_type ct "." "." 9
        (by decide) (by decide) (by decide)
        (ProcError.messageTypeError.inj (Except.error.inj hcontra))
    · have hc' : (Message.leaf hs pay).is_multipart = false
          ∧ (Message.leaf hs pay).get_content_type = "text/plain" := by
        simpa using hc
      cases hchm : create_html_message p (Message.leaf hs pay) with
      | error e =>
        obtain ⟨s, hrs, he⟩ := chm_error_inv p _ e hchm
        rw [ahp_eq_chm_error p _ e hc'.1 hc'.2 hchm, he]
        intro hcontra
        exact ProcError.noConfusion (Except.error.inj hcontra)
      | ok hp =>
        rw [ahp_eq_ok p _ hp hc'.1 hc'.2 hchm]
        intro hcontra
        exact Except.noConfusion hcontra
  | multi hs cs =>
    rw [generate_multi]
    cases cs with
    | nil =>
      rw [ahm_eq_empty]
      intro hcontra
      exact ProcError.noConfusion (Except.error.inj hcontra)
    | cons c rest =>
      by_cases hct : c.get_content_type = "text/plain"
      · cases hchm : create_html_message p c with
        | error e =>
          obtain ⟨s, hrs, he⟩ := chm_error_inv p c e hchm
          rw [ahm_eq_chm_error p hs c rest e hct hchm, he]
          intro hcontra
          exact ProcError.noConfusion (Except.error.inj hcontra)
        | ok hp =>
          rw [ahm_eq_ok p hs c rest hp hct hchm]
          intro hcontra
          exact Except.noConfusion hcontra
      · rw [ahm_eq_ct_error p hs c rest (by simp [hct])]
        intro hcontra
        exact append3_ne "Expected component 1 to be text/plain, but got "
          "Expected multipart/alternative, but got "
          (Message.multi hs (c :: rest)).get_content_type ct "." "." 9
          (by decide) (by decide) (by decide)
          (ProcError.messageTypeError.inj (Except.error.inj hcontra))

/-- Witness for C10 at a concrete container input. -/
theorem C10_nonmultipart_branch_unreachable_witness :
    (generate_html_msg ex_proc ex_mixed_html_first).1
      ≠ .error (.messageTypeError
          ("Expected multipart/alternative, but got " ++ "multipart/mixed" ++ ".")) :=
  C10_nonmultipart_branch_unreachable ex_proc ex_mixed_html_first "multipart/mixed"

end Plain2Html
